import Mathlib

/-
Verification of the Learning_ETL repository's tabular merge/clean/upload
pipeline and its read API, as a shallow embedding of the Python sources
(`merger_csv.py`, `upload_csv.py`, `api.py`).

Modelling conventions:
* A pandas DataFrame is a `Table`: an ordered list of column names and an
  ordered list of rows; each cell is `Option Val`, with `none` standing for a
  `NaN` / `None` missing entry.  The distinct missing value `pd.NA`, which the
  Cleaner's replace step introduces and which `astype(str)` renders as the
  literal `'<NA>'`, is carried separately as the value `Val.naV`.
* A Python float is carried by the digits of its decimal representation
  (`mant * 10 ^ ex`); `decimal.Decimal` values carry the same digits.
* Timestamps are modelled at day granularity by a calendar `Date`.
-/

namespace ETL

/-- Calendar dates (pandas Timestamps at day granularity). -/
structure Date where
  year : Int
  month : Int
  day : Int
deriving DecidableEq, Repr

/-- Scalar cell values of an in-memory table.  `floatV mant ex` is a Python
float whose decimal representation reads `mant * 10 ^ ex`; `decV` is a
`decimal.Decimal` with the same digits; `naV` is `pd.NA`, the missing value
the Cleaner's replace step leaves behind (it counts as missing for
`isna`/`dropna`, but `astype(str)` renders it as the literal `'<NA>'`,
unlike `NaN`/`None` which render as `'nan'`/`'None'`). -/
inductive Val where
  | str (s : String)
  | intV (n : Int)
  | floatV (mant : Int) (ex : Int)
  | boolV (b : Bool)
  | decV (mant : Int) (ex : Int)
  | dateV (d : Date)
  | naV
deriving DecidableEq, Repr

/-- An in-memory table: ordered column names and ordered rows.  A cell is
`none` when the entry is missing. -/
structure Table where
  cols : List String
  rows : List (List (Option Val))
deriving DecidableEq, Repr

/-! ## The Cleaner (`clean_data` in `merger_csv.py`) -/

/-- Positional decimal rendering of `m * 10 ^ e`, used for `str()` of floats
and decimals.  (Scientific-notation thresholds of Python's float repr are not
modelled; the digits are printed positionally.) -/
def decRepr (m : Int) (e : Int) : String :=
  let sign := if m < 0 then "-" else ""
  let digits := toString m.natAbs
  if 0 ≤ e then
    sign ++ digits ++ String.mk (List.replicate e.toNat '0') ++ ".0"
  else
    let k := (-e).toNat
    if digits.length ≤ k then
      sign ++ "0." ++ String.mk (List.replicate (k - digits.length) '0') ++ digits
    else
      sign ++ (digits.toList.take (digits.length - k)).asString ++ "." ++
        (digits.toList.drop (digits.length - k)).asString

/-- Python `str()` of a scalar, as `astype(str)` applies it to the values of
an object-dtype column. -/
def pyStr : Val → String
  | .str s => s
  | .intV n => toString n
  | .boolV b => if b then "True" else "False"
  | .floatV m e => decRepr m e
  | .decV m e => decRepr m e
  | .dateV d => toString d.year ++ "-" ++ toString d.month ++ "-" ++ toString d.day
  | .naV => "<NA>"

/-- ASCII whitespace as Python's `str.strip` removes it (space, tab, newline,
vertical tab, form feed, carriage return). -/
def isPySpace (c : Char) : Bool :=
  c.toNat = 32 ∨ c.toNat = 9 ∨ c.toNat = 10 ∨ c.toNat = 11 ∨ c.toNat = 12 ∨ c.toNat = 13

/-- Python `str.strip()`: drop leading and trailing whitespace. -/
def pyStrip (s : String) : String :=
  String.mk (((s.data.dropWhile isPySpace).reverse.dropWhile isPySpace).reverse)

/-- `pd.notna` on one cell: `none` (`NaN`/`None`) and `Val.naV` (`pd.NA`) are
missing, everything else is present. -/
def notNA : Option Val → Bool
  | none => false
  | some Val.naV => false
  | some _ => true

/-- Number of non-null cells in a row (what `dropna(thresh=...)` counts). -/
def nonNullCount (r : List (Option Val)) : Nat := (r.filter notNA).length

/-- Step 1a, `df.dropna(how='all')`: drop every row all of whose cells are
null. -/
def dropAllNullRows (t : Table) : Table :=
  { t with rows := t.rows.filter fun r => r.any notNA }

/-- Step 1b, `df.dropna(axis=1, how='all')`: drop every column that is null
in all remaining rows. -/
def dropAllNullCols (t : Table) : Table :=
  let keep : Nat → Bool := fun j => t.rows.any fun r => notNA (r.getD j none)
  let idxs := (List.range t.cols.length).filter keep
  { cols := idxs.filterMap fun j => t.cols.get? j
    rows := t.rows.map fun r => idxs.map fun j => r.getD j none }

/-- Keep-first deduplication with an accumulator of already-seen elements. -/
def dedupFirstAux [DecidableEq α] : List α → List α → List α
  | _, [] => []
  | seen, x :: xs =>
    if x ∈ seen then dedupFirstAux seen xs else x :: dedupFirstAux (x :: seen) xs

/-- Keep-first deduplication of a list. -/
def dedupFirst [DecidableEq α] (l : List α) : List α := dedupFirstAux [] l

/-- Step 2, `df.drop_duplicates()`: drop exact duplicate rows keeping the
first occurrence (pandas treats equal null cells as equal here).  Plain cell
equality is used: loaded tables contain no `pd.NA`, and after step 4 a text
column holds only strings and `pd.NA` while other columns never hold `pd.NA`,
so no reachable column mixes the two missing flavours. -/
def dedupRows (t : Table) : Table := { t with rows := dedupFirst t.rows }

/-- The completeness threshold `int(0.3 * len(df.columns))`.  Python computes
this in binary floating point, but `int(0.3 * n)` coincides with the exact
`⌊3 * n / 10⌋` for every realistic column count (checked exhaustively for
`n ≤ 2 * 10 ^ 6`; the float relative error is below half an ulp, so the
product rounds back to the exact value whenever `3 * n / 10` is integral). -/
def cleanThresh (ncols : Nat) : Nat := 3 * ncols / 10

/-- Step 3, `df.dropna(thresh=int(0.3 * len(df.columns)))`: keep only rows
having at least `cleanThresh` non-null cells. -/
def dropIncomplete (t : Table) : Table :=
  { t with rows := t.rows.filter fun r => cleanThresh t.cols.length ≤ nonNullCount r }

/-- Does column `j` hold any string value?  (Abstraction of pandas object
dtype: a column is treated as text iff it contains a string value.) -/
def isTextCol (t : Table) (j : Nat) : Bool :=
  t.rows.any fun r =>
    match r.getD j none with
    | some (.str _) => true
    | _ => false

/-- Step 4 on one cell of a text column: `astype(str)`, then `.str.strip()`,
then replacement of `''`, `'nan'`, `'None'`, `'null'` by `pd.NA`.  A
`NaN`/`None` cell stringifies to `'nan'`/`'None'` and is replaced to `pd.NA`
(`Val.naV`); a `pd.NA` cell left by an earlier pass stringifies to the
literal `'<NA>'`, which the replace list does not catch, so it is
resurrected as the string `'<NA>'`. -/
def cleanTextCell : Option Val → Option Val
  | none => some Val.naV
  | some v =>
    let s := pyStrip (pyStr v)
    if s = "" ∨ s = "nan" ∨ s = "None" ∨ s = "null" then some Val.naV
    else some (.str s)

/-- Step 4, the text-column cleaning loop of `clean_data`. -/
def textClean (t : Table) : Table :=
  { t with rows := t.rows.map fun r =>
      (List.range t.cols.length).map fun j =>
        if isTextCol t j then cleanTextCell (r.getD j none) else r.getD j none }

/-- `clean_data` from `merger_csv.py`: the four cleaning steps in order. -/
def clean_data (t : Table) : Table :=
  textClean (dropIncomplete (dedupRows (dropAllNullCols (dropAllNullRows t))))

/-- A non-null integer cell, used in concrete tables below. -/
def i1 : Option Val := some (.intV 1)

/-- Seven columns; the second row's only non-null cell is the sole non-null
witness of column `c7`, and falls below the completeness threshold
`⌊0.3 * 7⌋ = 2`, so the first cleaning pass drops the row and only the second
pass can drop the then-all-null column `c7`. -/
def cexIdem : Table :=
  { cols := ["c1", "c2", "c3", "c4", "c5", "c6", "c7"]
    rows := [[i1, i1, i1, i1, i1, i1, none],
             [none, none, none, none, none, none, i1]] }

/-! ## Claims C1 and C2: the Cleaner -/

/-- Claim C1, counterexample: the Cleaner is not idempotent.  On `cexIdem`
the first application drops the incomplete second row, leaving column `c7`
all-null; only the second application removes that column, so cleaning twice
differs from cleaning once. -/
theorem clean_data_not_idempotent_cex :
    clean_data (clean_data cexIdem) ≠ clean_data cexIdem := by decide

/-- Claim C1 as amended (sufficient condition): the Cleaner is idempotent on
any table whose cleaned output is left unchanged by each individual cleaning
step.  In general idempotence fails: steps 3 and 4 can produce all-null
rows/columns, duplicates, or newly incomplete rows that only a second
application removes, and a `pd.NA` that step 4 left in a text column is
rewritten by a second application to the literal string `'<NA>'` (so such
tables falsify the `textClean` fixed-point hypothesis and are not covered). -/
theorem clean_data_idempotent_on_fixed (t : Table)
    (h1 : dropAllNullRows (clean_data t) = clean_data t)
    (h2 : dropAllNullCols (clean_data t) = clean_data t)
    (h3 : dedupRows (clean_data t) = clean_data t)
    (h4 : dropIncomplete (clean_data t) = clean_data t)
    (h5 : textClean (clean_data t) = clean_data t) :
    clean_data (clean_data t) = clean_data t := by
  show textClean (dropIncomplete (dedupRows (dropAllNullCols (dropAllNullRows (clean_data t))))) =
    clean_data t
  rw [h1, h2, h3, h4, h5]

/-- Witness for `clean_data_idempotent_on_fixed` at a concrete one-cell
table. -/
theorem clean_data_idempotent_on_fixed_witness :
    clean_data (clean_data (Table.mk ["a"] [[some (Val.intV 1)]])) =
      clean_data (Table.mk ["a"] [[some (Val.intV 1)]]) :=
  clean_data_idempotent_on_fixed (Table.mk ["a"] [[some (Val.intV 1)]])
    (by decide) (by decide) (by decide) (by decide) (by decide)

/-- A text column with one missing cell: cleaning once leaves `pd.NA` there. -/
def tNA : Table :=
  { cols := ["a", "b"]
    rows := [[some (Val.str "x"), i1], [none, some (Val.intV 2)]] }

/-- Fidelity of the `pd.NA` path: on `tNA`, one cleaning pass leaves `pd.NA`
in the text column, a second pass rewrites it to the literal string `'<NA>'`
(so the Cleaner is not idempotent there either), and this table falsifies
the `textClean` fixed-point hypothesis of `clean_data_idempotent_on_fixed`,
so that theorem does not cover it. -/
theorem clean_data_na_resurrection :
    (clean_data tNA).rows = [[some (Val.str "x"), i1], [some Val.naV, some (Val.intV 2)]]
    ∧ (clean_data (clean_data tNA)).rows =
        [[some (Val.str "x"), i1], [some (Val.str "<NA>"), some (Val.intV 2)]]
    ∧ textClean (clean_data tNA) ≠ clean_data tNA
    ∧ clean_data (clean_data tNA) ≠ clean_data tNA := by
  refine ⟨by decide, by decide, by decide, by decide⟩

/-- Claim C2: in the completeness step, a row survives iff its non-null cell
count is at least `⌊0.3 * column_count⌋` (the column count current at that
step), and whenever that threshold is 0 the step drops no row at all. -/
theorem dropIncomplete_spec (t : Table) :
    (∀ r, r ∈ (dropIncomplete t).rows ↔
      r ∈ t.rows ∧ cleanThresh t.cols.length ≤ nonNullCount r)
    ∧ (cleanThresh t.cols.length = 0 → dropIncomplete t = t) := by
  constructor
  · intro r
    simp [dropIncomplete, List.mem_filter]
  · intro h
    cases t with
    | mk cols rows =>
      simp only [dropIncomplete] at h ⊢
      rw [h]
      simp

/-- Witness for `dropIncomplete_spec`: with two columns the threshold is 0,
so even an all-null row survives the completeness step. -/
theorem dropIncomplete_spec_witness :
    dropIncomplete (Table.mk ["a", "b"] [[none, none]]) =
      Table.mk ["a", "b"] [[none, none]] :=
  (dropIncomplete_spec (Table.mk ["a", "b"] [[none, none]])).2 (by decide)

/-! ## The merger (`merge_and_clean_files` in `merger_csv.py`) -/

/-- The `file_type` parameter of `merge_and_clean_files`. -/
inductive FType where
  | csv
  | excel
  | both
deriving DecidableEq, Repr

/-- What a directory entry contains: a single delimited table, or a workbook
of named sheets. -/
inductive FileContent where
  | csvF (t : Table)
  | excelF (sheets : List (String × Table))
deriving DecidableEq, Repr

/-- A directory entry: file name plus content. -/
structure FileEntry where
  name : String
  content : FileContent
deriving DecidableEq, Repr

/-- Python `str.lower()` (character-wise, over the string's characters). -/
def lowerStr (s : String) : String := String.mk (s.data.map Char.toLower)

/-- Python `str.endswith(suffix)` (character-wise suffix test). -/
def hasSuffix (s suf : String) : Bool := List.isSuffixOf suf.data s.data

/-- `f.lower().endswith('.csv')`. -/
def isCsvName (s : String) : Bool := hasSuffix (lowerStr s) ".csv"

/-- `f.lower().endswith(('.xlsx', '.xls'))`. -/
def isExcelName (s : String) : Bool :=
  hasSuffix (lowerStr s) ".xlsx" || hasSuffix (lowerStr s) ".xls"

/-- `not sheet_df.empty`: a DataFrame is empty when it has no rows or no
columns. -/
def nonEmptyTable (t : Table) : Bool := !t.rows.isEmpty && !t.cols.isEmpty

/-- `pd.read_csv` of an entry (yields nothing on a non-CSV payload). -/
def readCsvFile (f : FileEntry) : List Table :=
  match f.content with
  | .csvF t => [t]
  | .excelF _ => []

/-- `pd.read_excel(path, sheet_name=None)` followed by the non-empty-sheet
loop: the workbook's non-empty sheets in workbook order. -/
def readExcelFile (f : FileEntry) : List Table :=
  match f.content with
  | .csvF _ => []
  | .excelF sheets => (sheets.map Prod.snd).filter nonEmptyTable

/-- The loading loop of `merge_and_clean_files` (with `file_pattern=None`):
first every `.csv` file in directory-listing order (when the kind selector
allows CSV), then every `.xlsx`/`.xls` file in directory-listing order, each
contributing its non-empty sheets in workbook order. -/
def loadTables (files : List FileEntry) (ft : FType) : List Table :=
  (if ft = FType.csv ∨ ft = FType.both then
      (files.filter fun f => isCsvName f.name).flatMap readCsvFile
    else []) ++
  (if ft = FType.excel ∨ ft = FType.both then
      (files.filter fun f => isExcelName f.name).flatMap readExcelFile
    else [])

/-- First-appearance union of column lists, the order `pd.concat(...,
sort=False)` gives the result columns. -/
def colUnion (acc : List String) (cs : List String) : List String :=
  acc ++ cs.filter fun c => ¬ c ∈ acc

/-- Result columns of `pd.concat`: fold of the first-appearance union. -/
def mergeCols (ts : List Table) : List String :=
  ts.foldl (fun acc t => colUnion acc t.cols) []

/-- Value of a row (laid out over `cols`) at column `c`; null when the
column is absent. -/
def cellAt : List String → List (Option Val) → String → Option Val
  | [], _, _ => none
  | c2 :: cols2, r, c => if c2 = c then r.headD none else cellAt cols2 r.tail c

/-- Re-lay a row over the merged column list, null-filling absent columns. -/
def alignRow (cols mcols : List String) (r : List (Option Val)) : List (Option Val) :=
  mcols.map (cellAt cols r)

/-- `pd.concat(dfs, ignore_index=True)`: union the columns in
first-appearance order and concatenate the rows in input order. -/
def mergeTables (ts : List Table) : Table :=
  { cols := mergeCols ts
    rows := ts.flatMap fun t => t.rows.map (alignRow t.cols (mergeCols ts)) }

/-- Modelled from the claim's words (for comparison with `loadTables`): files
processed in directory-listing order regardless of kind, each contributing
its tables in place. -/
def loadTablesListingOrder (files : List FileEntry) (ft : FType) : List Table :=
  files.flatMap fun f =>
    (if (ft = FType.csv ∨ ft = FType.both) ∧ isCsvName f.name then readCsvFile f else []) ++
    (if (ft = FType.excel ∨ ft = FType.both) ∧ isExcelName f.name then readExcelFile f else [])

/-- A one-cell sheet table used in concrete directories below. -/
def sheetT : Table := { cols := ["x"], rows := [[some (.intV 1)]] }

/-- A one-cell CSV table used in concrete directories below. -/
def csvT : Table := { cols := ["x"], rows := [[some (.intV 2)]] }

/-- A directory whose listing has a workbook before a CSV file. -/
def cexDir : List FileEntry :=
  [⟨"a.xlsx", .excelF [("Sheet1", sheetT)]⟩, ⟨"b.csv", .csvF csvT⟩]

/-! ## Lemmas on first-appearance column union -/

/-- `dedupFirstAux` only consults the seen accumulator through membership. -/
theorem dedupFirstAux_congr [DecidableEq α] (l : List α) (s1 s2 : List α)
    (h : ∀ x, x ∈ s1 ↔ x ∈ s2) : dedupFirstAux s1 l = dedupFirstAux s2 l := by
  induction l generalizing s1 s2 with
  | nil => rfl
  | cons x xs ih =>
    by_cases hx : x ∈ s1
    · rw [dedupFirstAux, dedupFirstAux, if_pos hx, if_pos ((h x).mp hx)]
      exact ih s1 s2 h
    · rw [dedupFirstAux, dedupFirstAux, if_neg hx, if_neg (fun hc => hx ((h x).mpr hc))]
      congr 1
      apply ih
      intro y
      simp only [List.mem_cons]
      exact or_congr Iff.rfl (h y)

/-- Splitting `dedupFirstAux` across an append: the second half is
deduplicated with the first half added to the seen set. -/
theorem dedupFirstAux_append [DecidableEq α] (l m s : List α) :
    dedupFirstAux s (l ++ m) = dedupFirstAux s l ++ dedupFirstAux (l ++ s) m := by
  induction l generalizing s with
  | nil => simp [dedupFirstAux]
  | cons x xs ih =>
    by_cases hx : x ∈ s
    · rw [List.cons_append, dedupFirstAux, if_pos hx, dedupFirstAux, if_pos hx, ih s]
      congr 1
      apply dedupFirstAux_congr
      intro y
      constructor
      · intro hy
        rcases List.mem_append.mp hy with h1 | h1
        · exact List.mem_append.mpr (Or.inl (List.mem_cons_of_mem x h1))
        · exact List.mem_append.mpr (Or.inr h1)
      · intro hy
        rcases List.mem_append.mp hy with h1 | h1
        · rcases List.mem_cons.mp h1 with h2 | h2
          · exact List.mem_append.mpr (Or.inr (h2 ▸ hx))
          · exact List.mem_append.mpr (Or.inl h2)
        · exact List.mem_append.mpr (Or.inr h1)
    · rw [List.cons_append, dedupFirstAux, if_neg hx, dedupFirstAux, if_neg hx, ih (x :: s),
        List.cons_append]
      congr 2
      apply dedupFirstAux_congr
      intro y
      simp only [List.mem_append, List.mem_cons]
      tauto

/-- On a duplicate-free list, keep-first deduplication against a seen set is
just filtering out the already-seen elements. -/
theorem dedupFirstAux_eq_filter [DecidableEq α] (l acc : List α) (h : l.Nodup) :
    dedupFirstAux acc l = l.filter fun c => ¬ c ∈ acc := by
  induction l generalizing acc with
  | nil => rfl
  | cons x xs ih =>
    have hx : ¬ x ∈ xs := (List.nodup_cons.mp h).1
    have hxs : xs.Nodup := (List.nodup_cons.mp h).2
    by_cases hmem : x ∈ acc
    · rw [dedupFirstAux, if_pos hmem, ih acc hxs]
      simp [hmem]
    · rw [dedupFirstAux, if_neg hmem, ih (x :: acc) hxs]
      have hfc : xs.filter (fun c => ¬ c ∈ x :: acc) = xs.filter (fun c => ¬ c ∈ acc) := by
        apply List.filter_congr
        intro y hy
        have hyx : y ≠ x := fun hxy => hx (hxy ▸ hy)
        simp [List.mem_cons, hyx]
      rw [hfc]
      simp [hmem]

/-- The fold of first-appearance unions is keep-first deduplication of the
concatenation (provided each block is itself duplicate-free). -/
theorem foldl_colUnion_eq_dedup (ls : List (List String)) (acc : List String)
    (h : ∀ l ∈ ls, l.Nodup) :
    ls.foldl colUnion acc = acc ++ dedupFirstAux acc ls.flatten := by
  induction ls generalizing acc with
  | nil => simp [dedupFirstAux]
  | cons l ls ih =>
    have hl : l.Nodup := h l (List.mem_cons_self l ls)
    have hls : ∀ x ∈ ls, x.Nodup := fun x hx => h x (List.mem_cons_of_mem l hx)
    rw [List.foldl_cons, ih (colUnion acc l) hls, List.flatten_cons, dedupFirstAux_append]
    have h1 : colUnion acc l = acc ++ dedupFirstAux acc l := by
      rw [colUnion, dedupFirstAux_eq_filter l acc hl]
    have h2 : dedupFirstAux (colUnion acc l) ls.flatten = dedupFirstAux (l ++ acc) ls.flatten := by
      apply dedupFirstAux_congr
      intro y
      rw [colUnion]
      simp only [List.mem_append, List.mem_filter, decide_not, Bool.not_eq_eq_eq_not,
        Bool.not_true, decide_eq_false_iff_not]
      tauto
    rw [h2, h1, List.append_assoc]

/-- Membership in the folded first-appearance union. -/
theorem mem_foldl_colUnion (ls : List (List String)) (acc : List String) (c : String) :
    c ∈ ls.foldl colUnion acc ↔ c ∈ acc ∨ ∃ l ∈ ls, c ∈ l := by
  induction ls generalizing acc with
  | nil => simp
  | cons l ls ih =>
    rw [List.foldl_cons, ih (colUnion acc l)]
    have : c ∈ colUnion acc l ↔ c ∈ acc ∨ c ∈ l := by
      rw [colUnion]
      simp only [List.mem_append, List.mem_filter, decide_not, Bool.not_eq_eq_eq_not,
        Bool.not_true, decide_eq_false_iff_not]
      tauto
    rw [this]
    simp only [List.mem_cons]
    constructor
    · rintro ((h1 | h1) | ⟨x, hx, hcx⟩)
      · exact Or.inl h1
      · exact Or.inr ⟨l, Or.inl rfl, h1⟩
      · exact Or.inr ⟨x, Or.inr hx, hcx⟩
    · rintro (h1 | ⟨x, hx | hx, hcx⟩)
      · exact Or.inl (Or.inl h1)
      · exact Or.inl (Or.inr (hx ▸ hcx))
      · exact Or.inr ⟨x, hx, hcx⟩

/-- A cell looked up at a column absent from the row's layout is null. -/
theorem cellAt_not_mem (cols : List String) (r : List (Option Val)) (c : String)
    (h : ¬ c ∈ cols) : cellAt cols r c = none := by
  induction cols generalizing r with
  | nil => rfl
  | cons c2 cols2 ih =>
    have hne : c2 ≠ c := fun he => h (he ▸ List.mem_cons_self c2 cols2)
    rw [cellAt, if_neg hne]
    exact ih r.tail fun hc => h (List.mem_cons_of_mem c2 hc)

/-! ## Claims C3 and C6: merge ordering and column union -/

/-- Claim C3, counterexample: with selector `both`, a directory listing a
workbook before a CSV file is merged with the CSV rows first, because the
loader processes all CSV files before any spreadsheet file; the
directory-listing-order reading of the claim gives a different table. -/
theorem merge_listing_order_cex :
    mergeTables (loadTables cexDir FType.both) ≠
      mergeTables (loadTablesListingOrder cexDir FType.both) := by decide

/-- Claim C3 as amended: under selector `both` every CSV file (in
directory-listing order) is loaded before every spreadsheet file (in
directory-listing order, sheets in workbook order); within one kind files
follow listing order, the merged rows follow loading order, and the merged
columns are the keep-first deduplication of the loaded tables' column lists
in first-appearance order. -/
theorem merge_load_order_amended (files : List FileEntry) (ts : List Table) :
    loadTables files FType.both = loadTables files FType.csv ++ loadTables files FType.excel
    ∧ ((∀ t ∈ ts, t.cols.Nodup) →
        (mergeTables ts).cols = dedupFirst (ts.flatMap Table.cols))
    ∧ (mergeTables ts).rows =
        ts.flatMap fun t => t.rows.map (alignRow t.cols (mergeTables ts).cols) := by
  refine ⟨?_, ?_, rfl⟩
  · simp [loadTables]
  · intro h
    show mergeCols ts = dedupFirst (ts.flatMap Table.cols)
    rw [mergeCols, dedupFirst, ← List.foldl_map (f := Table.cols) (g := colUnion)]
    rw [foldl_colUnion_eq_dedup (ts.map Table.cols) []
      (fun l hl => by
        rcases List.mem_map.mp hl with ⟨t, ht, rfl⟩
        exact h t ht)]
    rw [List.nil_append, List.flatMap_def]

/-- Witness for `merge_load_order_amended` at a two-table list with
duplicate-free columns. -/
theorem merge_load_order_amended_witness :
    (mergeTables [sheetT, csvT]).cols = dedupFirst ([sheetT, csvT].flatMap Table.cols) :=
  (merge_load_order_amended [] [sheetT, csvT]).2.1 (by decide)

/-- Claim C6: for a non-empty list of loaded tables, the merged column set is
the union of the input column sets, the merged rows are the row lists of the
inputs in input order (each re-laid over the merged columns), and a cell
whose column is absent from its source table is null; the merge is a total
function, never failing on a column present in only some sources. -/
theorem merge_union_spec (ts : List Table) (_hne : ts ≠ []) :
    (∀ c, c ∈ (mergeTables ts).cols ↔ ∃ t ∈ ts, c ∈ t.cols)
    ∧ (mergeTables ts).rows =
        ts.flatMap (fun t => t.rows.map (alignRow t.cols (mergeTables ts).cols))
    ∧ (∀ (t : Table) (r : List (Option Val)) (c : String),
        ¬ c ∈ t.cols → cellAt t.cols r c = none) := by
  refine ⟨?_, rfl, fun t r c h => cellAt_not_mem t.cols r c h⟩
  intro c
  show c ∈ mergeCols ts ↔ _
  rw [mergeCols, ← List.foldl_map (f := Table.cols) (g := colUnion), mem_foldl_colUnion]
  simp

/-- Witness for `merge_union_spec` at a concrete two-table list. -/
theorem merge_union_spec_witness :
    ("x" ∈ (mergeTables [sheetT, csvT]).cols ↔ ∃ t ∈ [sheetT, csvT], "x" ∈ t.cols) :=
  (merge_union_spec [sheetT, csvT] (by decide)).1 "x"

/-! ## The transform pipeline and the output write (claim C4) -/

/-- A caller-supplied transform: a name (`transform.__name__`) and a function
that may fail with a raised error. -/
structure Transform where
  name : String
  fn : Table → Except String Table

/-- Observable side effects of a merge invocation: progress lines printed to
the log, and the output-file write. -/
inductive Effect where
  | log (line : String)
  | wroteFile (t : Table)

/-- Did the effect trace write an output file? -/
def wroteSomething (effs : List Effect) : Bool :=
  effs.any fun e =>
    match e with
    | .wroteFile _ => true
    | .log _ => false

/-- The transform loop of `merge_and_clean_files`: each transform's name is
printed before it runs; a raised error propagates as-is and stops the loop. -/
def runTransforms : List Transform → Table → List Effect × Except String Table
  | [], t => ([], Except.ok t)
  | tr :: rest, t =>
    let line := Effect.log ("Applying custom transform: " ++ tr.name)
    match tr.fn t with
    | Except.error e => ([line], Except.error e)
    | Except.ok t2 =>
      let (effs, r) := runTransforms rest t2
      (line :: Effect.log ("After " ++ tr.name) :: effs, r)

/-- `merge_and_clean_files` (with `file_pattern=None`): load, merge, clean
unless skipped, run the transforms, and only then write the output file.  The
write is modelled as a `wroteFile` effect emitted after all transforms
succeed. -/
def merge_and_clean_files (files : List FileEntry) (ft : FType)
    (transforms : List Transform) (skipCleaning : Bool) :
    List Effect × Except String Table :=
  let ts := loadTables files ft
  if ts.isEmpty then
    ([], Except.error "No matching files found")
  else
    let merged := mergeTables ts
    let cleaned := if skipCleaning then merged else clean_data merged
    let (effs, r) := runTransforms transforms cleaned
    match r with
    | Except.error e => (effs, Except.error e)
    | Except.ok fin => (effs ++ [Effect.wroteFile fin], Except.ok fin)

/-- The transform loop never writes a file. -/
theorem runTransforms_no_write (trs : List Transform) (t : Table) :
    wroteSomething (runTransforms trs t).1 = false := by
  induction trs generalizing t with
  | nil => rfl
  | cons tr rest ih =>
    rw [runTransforms]
    cases h : tr.fn t with
    | error e => rfl
    | ok t2 =>
      simp only [wroteSomething, List.any_cons, Bool.false_or]
      exact ih t2

/-- An error coming out of the transform loop is some transform's own raised
error, unmodified. -/
theorem runTransforms_error_source (trs : List Transform) (t : Table) (e : String)
    (h : (runTransforms trs t).2 = Except.error e) :
    ∃ tr, tr ∈ trs ∧ ∃ u, tr.fn u = Except.error e := by
  induction trs generalizing t with
  | nil => exact absurd h (by simp [runTransforms])
  | cons tr rest ih =>
    rw [runTransforms] at h
    cases hf : tr.fn t with
    | error e2 =>
      rw [hf] at h
      simp only at h
      cases h
      exact ⟨tr, List.mem_cons_self tr rest, t, hf⟩
    | ok t2 =>
      rw [hf] at h
      simp only at h
      rcases ih t2 h with ⟨tr2, htr2, u, hu⟩
      exact ⟨tr2, List.mem_cons_of_mem tr htr2, u, hu⟩

/-- Does one string occur inside another (substring test)? -/
def containsSub (hay needle : String) : Bool :=
  (List.range (hay.data.length + 1)).any fun i => needle.data.isPrefixOf (hay.data.drop i)

/-- A transform that always raises, without mentioning its own name. -/
def failingTransform : Transform := ⟨"t1", fun _ => Except.error "boom"⟩

/-- Claim C4, counterexample: a failing transform aborts the merge, but the
surfaced error is the transform's own message, which does not name the
offending transform; the name appears only in the progress log printed before
the transform ran. -/
theorem transform_error_name_cex :
    (merge_and_clean_files [⟨"b.csv", .csvF csvT⟩] FType.csv [failingTransform] true).2 =
        Except.error "boom"
    ∧ containsSub "boom" "t1" = false := by
  constructor
  · rfl
  · rfl

/-- Claim C4 as amended: if a transform raises while the pipeline processes a
non-empty load, the whole merge aborts with exactly that transform's own
error, no output file is written, and the error is some listed transform's
raised failure (the transform's identity appears only in the progress log,
not in the surfaced error). -/
theorem transform_failure_aborts (files : List FileEntry) (ft : FType)
    (transforms : List Transform) (skip : Bool) (e : String)
    (hne : (loadTables files ft).isEmpty = false)
    (h : (runTransforms transforms
      (if skip then mergeTables (loadTables files ft)
       else clean_data (mergeTables (loadTables files ft)))).2 = Except.error e) :
    (merge_and_clean_files files ft transforms skip).2 = Except.error e
    ∧ wroteSomething (merge_and_clean_files files ft transforms skip).1 = false
    ∧ ∃ tr, tr ∈ transforms ∧ ∃ u, tr.fn u = Except.error e := by
  have hsrc := runTransforms_error_source transforms _ e h
  have hnw := runTransforms_no_write transforms
    (if skip then mergeTables (loadTables files ft)
     else clean_data (mergeTables (loadTables files ft)))
  rcases hr : runTransforms transforms
      (if skip then mergeTables (loadTables files ft)
       else clean_data (mergeTables (loadTables files ft))) with ⟨effs, r⟩
  rw [hr] at h hnw
  simp only at h hnw
  subst h
  rw [merge_and_clean_files, if_neg (by simp [hne])]
  simp only [hr]
  exact ⟨trivial, hnw, hsrc⟩

/-- Witness for `transform_failure_aborts` at a one-file directory and a
single failing transform. -/
theorem transform_failure_aborts_witness :
    (merge_and_clean_files [⟨"b.csv", .csvF csvT⟩] FType.csv [failingTransform] true).2 =
        Except.error "boom"
    ∧ wroteSomething
        (merge_and_clean_files [⟨"b.csv", .csvF csvT⟩] FType.csv [failingTransform] true).1 =
        false
    ∧ ∃ tr, tr ∈ [failingTransform] ∧ ∃ u, tr.fn u = Except.error "boom" :=
  transform_failure_aborts [⟨"b.csv", .csvF csvT⟩] FType.csv [failingTransform] true "boom"
    (by rfl) (by rfl)

/-! ## The store uploader (`upload_csv.py`, claims C5 and C7) -/

/-- `convert_to_dynamodb_format` on one cell: a missing value (`pd.isna`,
covering `NaN`/`None` and `pd.NA` alike) becomes `None`; a float becomes
`Decimal(str(value))`, i.e. a decimal with the same digits; every other
scalar passes through unchanged. -/
def convertCell : Option Val → Option Val
  | none => none
  | some Val.naV => none
  | some (Val.floatV m e) => some (Val.decV m e)
  | some v => some v

/-- `convert_to_dynamodb_format` on a whole row (`item` dict). -/
def convertRow (r : List (Option Val)) : List (Option Val) := r.map convertCell

/-- Is a value a Python float? -/
def Val.isFloat : Val → Bool
  | .floatV _ _ => true
  | _ => false

/-- Exact rational value of decimal digits `m * 10 ^ e`, for floats and
decimals. -/
def digitsRat : Val → Option ℚ
  | .floatV m e => some ((m : ℚ) * (10 : ℚ) ^ e)
  | .decV m e => some ((m : ℚ) * (10 : ℚ) ^ e)
  | _ => none

/-- Outcome of the upload loop. -/
structure UploadResult where
  uploadedRows : List (List (Option Val))
  uploadedCount : Nat
  skippedCount : Nat
deriving DecidableEq, Repr

/-- The row loop of `upload_file`: convert the row, skip it (but keep
processing) when the key cell is null or missing, otherwise submit it to the
batch and count it. -/
def uploadRows (keyIdx : Nat) : List (List (Option Val)) → UploadResult
  | [] => ⟨[], 0, 0⟩
  | r :: rest =>
    let item := convertRow r
    let res := uploadRows keyIdx rest
    if item.getD keyIdx none = none then
      ⟨res.uploadedRows, res.uploadedCount, res.skippedCount + 1⟩
    else
      ⟨item :: res.uploadedRows, res.uploadedCount + 1, res.skippedCount⟩

/-- `upload_file`: fail when the declared key column is absent from the
loaded table, otherwise run the row loop. -/
def upload_file (keyCol : String) (t : Table) : Except String UploadResult :=
  match t.cols.findIdx? (fun c => c = keyCol) with
  | none => Except.error ("Primary key column '" ++ keyCol ++ "' not found in file")
  | some j => Except.ok (uploadRows j t.rows)

/-- Counting invariants of the upload loop. -/
theorem uploadRows_counts (keyIdx : Nat) (rows : List (List (Option Val))) :
    (uploadRows keyIdx rows).skippedCount =
      (rows.filter fun r => (convertRow r).getD keyIdx none = none).length
    ∧ (uploadRows keyIdx rows).uploadedCount =
      (rows.filter fun r => ¬ (convertRow r).getD keyIdx none = none).length
    ∧ (uploadRows keyIdx rows).uploadedRows =
      (rows.filter fun r => ¬ (convertRow r).getD keyIdx none = none).map convertRow
    ∧ (uploadRows keyIdx rows).uploadedCount + (uploadRows keyIdx rows).skippedCount =
      rows.length := by
  induction rows with
  | nil => exact ⟨rfl, rfl, rfl, rfl⟩
  | cons r rest ih =>
    by_cases hk : (convertRow r).getD keyIdx none = none
    · rw [uploadRows]
      simp only [hk, if_pos]
      refine ⟨?_, ?_, ?_, ?_⟩
      · simp only [List.filter_cons, hk]
        simp [ih.1]
      · simp only [List.filter_cons, hk]
        simp [ih.2.1]
      · simp only [List.filter_cons, hk]
        simp [ih.2.2.1]
      · have h4 := ih.2.2.2
        simp only [List.length_cons]
        omega
    · rw [uploadRows]
      simp only [hk, if_neg, if_false]
      refine ⟨?_, ?_, ?_, ?_⟩
      · simp only [List.filter_cons, hk]
        simp [ih.1, hk]
      · simp only [List.filter_cons, hk]
        simp [ih.2.1, hk]
      · simp only [List.filter_cons, hk]
        simp [ih.2.2.1, hk]
      · have h4 := ih.2.2.2
        simp only [List.length_cons]
        omega

/-- Claim C5: on a successful upload, the rows whose (converted) key cell is
null or missing are exactly the skipped ones, the uploaded rows are the
remaining rows in order, and the reported uploaded count is the number of
loaded rows minus the number of skipped rows. -/
theorem upload_skip_spec (keyCol : String) (t : Table) (res : UploadResult)
    (h : upload_file keyCol t = Except.ok res) :
    res.uploadedCount + res.skippedCount = t.rows.length
    ∧ res.uploadedCount = t.rows.length - res.skippedCount
    ∧ ∃ j, t.cols.findIdx? (fun c => c = keyCol) = some j
        ∧ res.skippedCount =
            (t.rows.filter fun r => (convertRow r).getD j none = none).length
        ∧ res.uploadedRows =
            (t.rows.filter fun r => ¬ (convertRow r).getD j none = none).map convertRow := by
  rw [upload_file] at h
  cases hj : t.cols.findIdx? (fun c => c = keyCol) with
  | none =>
    rw [hj] at h
    exact absurd h (by simp)
  | some j =>
    rw [hj] at h
    simp only [Except.ok.injEq] at h
    subst h
    rcases uploadRows_counts j t.rows with ⟨hs, hu, hr, hsum⟩
    refine ⟨hsum, by omega, j, rfl, hs, hr⟩

/-- Witness for `upload_skip_spec`: a two-row table whose second row has a
null key cell uploads one row and skips one. -/
theorem upload_skip_spec_witness :
    (UploadResult.mk [[some (Val.str "a")]] 1 1).uploadedCount +
        (UploadResult.mk [[some (Val.str "a")]] 1 1).skippedCount =
      (Table.mk ["EmailId"] [[some (Val.str "a")], [none]]).rows.length :=
  (upload_skip_spec "EmailId" (Table.mk ["EmailId"] [[some (Val.str "a")], [none]])
    (UploadResult.mk [[some (Val.str "a")]] 1 1) (by rfl)).1

/-- Claim C7: row coercion for upload maps null to null, every float to the
decimal with the same digits (exactly the same rational value, and never
still a float), and leaves every other scalar unchanged. -/
theorem convert_format_spec (m e n : Int) (s : String) (b : Bool) (d : Date)
    (dm de : Int) :
    convertCell none = none
    ∧ convertCell (some Val.naV) = none
    ∧ convertCell (some (Val.floatV m e)) = some (Val.decV m e)
    ∧ digitsRat (Val.decV m e) = digitsRat (Val.floatV m e)
    ∧ (∀ c : Option Val, ∀ v : Val, convertCell c = some v → v.isFloat = false)
    ∧ convertCell (some (Val.intV n)) = some (Val.intV n)
    ∧ convertCell (some (Val.str s)) = some (Val.str s)
    ∧ convertCell (some (Val.boolV b)) = some (Val.boolV b)
    ∧ convertCell (some (Val.decV dm de)) = some (Val.decV dm de)
    ∧ convertCell (some (Val.dateV d)) = some (Val.dateV d) := by
  refine ⟨rfl, rfl, rfl, rfl, ?_, rfl, rfl, rfl, rfl, rfl⟩
  intro c v hc
  match c with
  | none => cases hc
  | some Val.naV => cases hc
  | some (Val.str s2) => cases hc; rfl
  | some (Val.intV n2) => cases hc; rfl
  | some (Val.floatV m2 e2) => cases hc; rfl
  | some (Val.boolV b2) => cases hc; rfl
  | some (Val.decV m2 e2) => cases hc; rfl
  | some (Val.dateV d2) => cases hc; rfl

/-- Witness for `convert_format_spec` at a concrete converted cell. -/
theorem convert_format_spec_witness :
    Val.isFloat (Val.intV 3) = false :=
  (convert_format_spec 1 2 3 "s" true ⟨2024, 1, 1⟩ 4 5).2.2.2.2.1
    (some (Val.intV 3)) (Val.intV 3) rfl

/-! ## The recency-filter transform (`filter_recent_data`, claim C8) -/

/-- Gregorian leap year. -/
def isLeapYear (y : Int) : Bool :=
  decide (y % 4 = 0 ∧ (y % 100 ≠ 0 ∨ y % 400 = 0))

/-- Days in a month of a given year. -/
def daysInMonth (y m : Int) : Int :=
  if m = 2 then (if isLeapYear y then 29 else 28)
  else if m = 4 ∨ m = 6 ∨ m = 9 ∨ m = 11 then 30 else 31

/-- Day count since 1970-01-01 (civil-calendar day number). -/
def dayNumber (dt : Date) : Int :=
  let y : Int := if dt.month ≤ 2 then dt.year - 1 else dt.year
  let era : Int := (if 0 ≤ y then y else y - 399) / 400
  let yoe : Int := y - era * 400
  let mp : Int := (dt.month + 9) % 12
  let doy : Int := (153 * mp + 2) / 5 + dt.day - 1
  let doe : Int := yoe * 365 + yoe / 4 - yoe / 100 + doy
  era * 146097 + doe - 719468

/-- `pd.Timestamp.now() - pd.DateOffset(years=1)`: the same month and day one
calendar year earlier, the day clamped into the shorter month (Feb 29 maps to
Feb 28). -/
def subOneYear (dt : Date) : Date :=
  ⟨dt.year - 1, dt.month, min dt.day (daysInMonth (dt.year - 1) dt.month)⟩

/-- Chronological comparison of dates. -/
def dateLE (a b : Date) : Bool :=
  decide (a.year < b.year ∨ (a.year = b.year ∧
    (a.month < b.month ∨ (a.month = b.month ∧ a.day ≤ b.day))))

/-- `'date' in col.lower()`. -/
def hasDateName (c : String) : Bool := containsSub (lowerStr c) "date"

/-- Overwrite the cell at index `j` of a row. -/
def setCell (r : List (Option Val)) (j : Nat) (v : Option Val) : List (Option Val) :=
  r.set j v

/-- `filter_recent_data` from `merger_csv.py`.  `parse` stands for
`pd.to_datetime(-, errors='coerce')` on one scalar (`none` = `NaT`); `now` is
the invocation timestamp at day granularity.  The first column whose
lowercased name contains `'date'` is parsed in place, rows whose value fails
to parse are dropped, and only rows with parsed date on or after
`now - DateOffset(years=1)` are kept; a table with no such column passes
through unchanged. -/
def filter_recent_data (parse : Val → Option Date) (now : Date) (t : Table) : Table :=
  match t.cols.filter hasDateName with
  | [] => t
  | c :: _ =>
    match t.cols.findIdx? (fun c2 => c2 = c) with
    | none => t
    | some j =>
      let cutoff := subOneYear now
      { t with rows := t.rows.filterMap fun r =>
          match (r.getD j none).bind parse with
          | none => none
          | some d =>
            if dateLE cutoff d then some (setCell r j (some (Val.dateV d))) else none }

/-- Modelled from the claim's words (for comparison with
`filter_recent_data`): keep exactly the rows whose parsed date lies within
the last 365 days of `now`. -/
def withinLast365 (now d : Date) : Bool :=
  decide (dayNumber now - 365 ≤ dayNumber d ∧ dayNumber d ≤ dayNumber now)

/-- The recency filter as the claim states it, with a strict 365-day window. -/
def filterRecent365 (parse : Val → Option Date) (now : Date) (t : Table) : Table :=
  match t.cols.filter hasDateName with
  | [] => t
  | c :: _ =>
    match t.cols.findIdx? (fun c2 => c2 = c) with
    | none => t
    | some j =>
      { t with rows := t.rows.filterMap fun r =>
          match (r.getD j none).bind parse with
          | none => none
          | some d =>
            if withinLast365 now d then some (setCell r j (some (Val.dateV d))) else none }

/-- A toy `pd.to_datetime`: a datetime scalar parses to itself, anything else
fails. -/
def parse0 : Val → Option Date
  | Val.dateV d => some d
  | _ => none

/-- A one-column table whose date cell lies 366 days before 2024-03-01. -/
def recencyT : Table := { cols := ["Date"], rows := [[some (Val.dateV ⟨2023, 3, 1⟩)]] }

/-- Claim C8, counterexample: at invocation time 2024-03-01 the code's cutoff
`now - DateOffset(years=1)` is 2023-03-01, which is 366 days earlier (2024 is
a leap year), so the code keeps a row 366 days old that a strict 365-day
window would drop. -/
theorem filter_recent_cex :
    filter_recent_data parse0 ⟨2024, 3, 1⟩ recencyT ≠
        filterRecent365 parse0 ⟨2024, 3, 1⟩ recencyT
    ∧ dayNumber ⟨2024, 3, 1⟩ - dayNumber ⟨2023, 3, 1⟩ = 366 := by
  constructor
  · decide
  · decide

/-- Claim C8 as amended: the recency filter is the identity when no column
name contains `'date'` (case-insensitively); otherwise it parses the first
such column, drops rows that fail to parse, and keeps exactly the rows whose
parsed date is on or after `now` minus one calendar year (a 366-day window
when it spans a Feb 29, future dates included). -/
theorem filter_recent_amended (parse : Val → Option Date) (now : Date) (t : Table) :
    (t.cols.filter hasDateName = [] → filter_recent_data parse now t = t)
    ∧ (∀ c rest j, t.cols.filter hasDateName = c :: rest →
        t.cols.findIdx? (fun c2 => c2 = c) = some j →
        (filter_recent_data parse now t).cols = t.cols
        ∧ (filter_recent_data parse now t).rows = t.rows.filterMap fun r =>
            match (r.getD j none).bind parse with
            | none => none
            | some d =>
              if dateLE (subOneYear now) d then some (setCell r j (some (Val.dateV d)))
              else none) := by
  constructor
  · intro h
    rw [filter_recent_data, h]
  · intro c rest j hc hj
    simp only [filter_recent_data, hc, hj]
    exact ⟨trivial, trivial⟩

/-- Witness for `filter_recent_amended`: a no-date-column table passes
through unchanged, and on `recencyT` the filter keeps the table's columns. -/
theorem filter_recent_amended_witness :
    filter_recent_data parse0 ⟨2024, 3, 1⟩ (Table.mk ["x"] []) = Table.mk ["x"] []
    ∧ (filter_recent_data parse0 ⟨2024, 3, 1⟩ recencyT).cols = recencyT.cols :=
  ⟨(filter_recent_amended parse0 ⟨2024, 3, 1⟩ (Table.mk ["x"] [])).1 (by decide),
   ((filter_recent_amended parse0 ⟨2024, 3, 1⟩ recencyT).2 "Date" [] 0
     (by decide) (by decide)).1⟩

/-! ## The Read API (`api.py`, claims C9 and C10) -/

/-- `f'Bearer {AUTH_TOKEN}'`. -/
def expectedToken (secret : String) : String := "Bearer " ++ secret

/-- `require_auth`: the request passes iff the `Authorization` header is
present, truthy, and string-equal to the expected token (`if not token or
token != f'Bearer {AUTH_TOKEN}'` rejects). -/
def authOk (secret : String) (hdr : Option String) : Bool :=
  match hdr with
  | none => false
  | some tok => (!(tok == "")) && (tok == expectedToken secret)

/-- Response of a data endpoint: status code, optional error body, success
flag, record count and records. -/
structure ApiResponse where
  status : Nat
  error : Option String
  success : Bool
  count : Nat
  dataRows : List (List (Option Val))
deriving DecidableEq, Repr

/-- `GET /api/crm/data` (the store scan abstracted to the full record list;
the store-failure 500 branch is not modelled). -/
def get_all_data (secret : String) (hdr : Option String)
    (store : List (List (Option Val))) : ApiResponse :=
  if authOk secret hdr then
    { status := 200, error := none, success := true, count := store.length,
      dataRows := store }
  else
    { status := 401, error := some "Invalid or missing auth token", success := false,
      count := 0, dataRows := [] }

/-- `GET /api/crm/data/<email_id>` (the keyed store abstracted to an
association list; the store-failure 500 branch is not modelled). -/
def get_data_by_email (secret : String) (hdr : Option String)
    (store : List (String × List (Option Val))) (key : String) : ApiResponse :=
  if authOk secret hdr then
    match store.lookup key with
    | some rec => { status := 200, error := none, success := true, count := 1,
                    dataRows := [rec] }
    | none => { status := 404, error := some "Record not found", success := false,
                count := 0, dataRows := [] }
  else
    { status := 401, error := some "Invalid or missing auth token", success := false,
      count := 0, dataRows := [] }

/-- Response of the `/debug` endpoint. -/
structure DebugResponse where
  status : Nat
  receivedToken : Option String
  expectedTok : String
  authTokenEnv : String
  isMatch : Bool
deriving DecidableEq, Repr

/-- `GET /debug`: no authentication check; always 200, echoing the expected
token and the configured secret. -/
def debug_auth (secret : String) (hdr : Option String) : DebugResponse :=
  { status := 200
    receivedToken := hdr
    expectedTok := expectedToken secret
    authTokenEnv := secret
    isMatch := hdr == some (expectedToken secret) }

/-- The expected token is never the empty string. -/
theorem expectedToken_ne_empty (secret : String) : expectedToken secret ≠ "" := by
  intro h
  have hlen : (expectedToken secret).length = 0 := h ▸ rfl
  rw [expectedToken, String.length_append] at hlen
  simp at hlen
  exact absurd hlen.1 (by decide)

/-- Claim C9: a data-endpoint request is accepted iff its `Authorization`
header is exactly `'Bearer '` followed by the configured secret; any missing
or non-matching header yields status 401 with an error body, and in
particular a request with no header at all yields 401. -/
theorem require_auth_spec (secret : String) (hdr : Option String)
    (store : List (List (Option Val)))
    (kstore : List (String × List (Option Val))) (key : String) :
    (authOk secret hdr = true ↔ hdr = some ("Bearer " ++ secret))
    ∧ (authOk secret hdr = false →
        (get_all_data secret hdr store).status = 401
        ∧ (get_all_data secret hdr store).error.isSome = true
        ∧ (get_data_by_email secret hdr kstore key).status = 401
        ∧ (get_data_by_email secret hdr kstore key).error.isSome = true)
    ∧ (get_all_data secret none store).status = 401 := by
  refine ⟨?_, ?_, rfl⟩
  · cases hdr with
    | none => simp [authOk]
    | some tok =>
      rw [authOk]
      constructor
      · intro h
        rcases Bool.and_eq_true_iff.mp h with ⟨_, h2⟩
        exact congrArg some (eq_of_beq h2)
      · intro h
        have htok : tok = expectedToken secret := by
          cases h
          rfl
        subst htok
        have hne : (expectedToken secret == "") = false :=
          beq_eq_false_iff_ne.mpr (expectedToken_ne_empty secret)
        rw [hne]
        simp
  · intro h
    rw [get_all_data, if_neg (by simp [h]), get_data_by_email, if_neg (by simp [h])]
    exact ⟨rfl, rfl, rfl, rfl⟩

/-- Witness for `require_auth_spec`: with no `Authorization` header the data
endpoints answer 401 with an error body. -/
theorem require_auth_spec_witness :
    (get_all_data "secret0" none []).status = 401
    ∧ (get_all_data "secret0" none []).error.isSome = true
    ∧ (get_data_by_email "secret0" none [] "k").status = 401
    ∧ (get_data_by_email "secret0" none [] "k").error.isSome = true :=
  (require_auth_spec "secret0" none [] [] "k").2.1 (by rfl)

/-- Claim C10: `/debug` performs no authentication check: every request gets
status 200 with a body carrying the configured secret (both raw and as the
expected token), so two deployments differing only in the secret are
distinguishable by the same unauthenticated request — noninterference of the
secret fails. -/
theorem debug_leaks_secret (s1 s2 : String) (hdr : Option String) :
    (debug_auth s1 hdr).status = 200
    ∧ (debug_auth s1 hdr).authTokenEnv = s1
    ∧ (debug_auth s1 hdr).expectedTok = "Bearer " ++ s1
    ∧ (s1 ≠ s2 → debug_auth s1 none ≠ debug_auth s2 none) := by
  refine ⟨rfl, rfl, rfl, ?_⟩
  intro hne hc
  exact hne (congrArg DebugResponse.authTokenEnv hc)

/-- Witness for `debug_leaks_secret`: two deployments with secrets `"a"` and
`"b"` answer the same header-less `/debug` request differently. -/
theorem debug_leaks_secret_witness :
    debug_auth "a" none ≠ debug_auth "b" none :=
  (debug_leaks_secret "a" "b" none).2.2.2 (by decide)

end ETL

